import Mathlib

/-!
Verification of the resilient agent execution core: a shallow embedding of
the repository's four templates (agent memory / context window, circuit
breaker + retry tool execution, multi-agent orchestrator planning and
synthesis, ReAct loop), with theorems settling the specification claims.

Token counting (tiktoken) is an external capability; it is modelled as a
parameter `tc : String → Nat`, as the spec directs ("tokenizer treated as a
capability: count_tokens(text) -> integer").
-/

/-! ## Agent memory: data model (templates/agent-memory/agent.py) -/

/-- A conversation message as stored by `Memory.add_message`:
role, content and timestamp. -/
structure Msg where
  role : String
  content : String
  timestamp : String
deriving DecidableEq

/-- A message as rendered for the LLM: only role and content are kept
by `get_conversation_context`. -/
structure ChatMsg where
  role : String
  content : String
deriving DecidableEq

/-- A long-term memory fact (`MemoryEntry` dataclass). -/
structure MemoryEntry where
  key : String
  value : String
  timestamp : String
  importance : Nat
deriving DecidableEq

/-- The `Memory` object state used by rendering: the token limit, the
conversation log (chronological order) and the fact store (insertion
order, keys unique). -/
structure MemoryState where
  max_context_tokens : Nat
  conversation : List Msg
  facts : List MemoryEntry
deriving DecidableEq

/-- `count_messages_tokens`: total tokens of a message list, adding the
fixed overhead of 4 per message. -/
def count_messages_tokens (tc : String → Nat) (messages : List ChatMsg) : Nat :=
  messages.foldl (fun total m => total + (tc m.content + 4)) 0

/-- Insert a fact into a descending-importance sorted list, keeping
earlier-inserted facts first among equals (Python's stable sort). -/
def insertFact (f : MemoryEntry) : List MemoryEntry → List MemoryEntry
  | [] => [f]
  | g :: gs => if g.importance ≤ f.importance then f :: g :: gs else g :: insertFact f gs

/-- Stable sort of facts by importance, most important first
(`sorted(self.facts.values(), key=lambda x: x.importance, reverse=True)`). -/
def sortFactsDesc : List MemoryEntry → List MemoryEntry
  | [] => []
  | f :: fs => insertFact f (sortFactsDesc fs)

/-- `Memory._format_facts`: digest of the top-10 facts by importance. -/
def format_facts (facts : List MemoryEntry) : String :=
  if facts.isEmpty then ""
  else "Important context from previous conversations:\n" ++
    String.join (((sortFactsDesc facts).take 10).map
      (fun f => "- " ++ f.key ++ ": " ++ f.value ++ "\n"))

/-- The system entry content: the prompt, plus the facts digest when
requested and facts exist. -/
def systemContent (mem : MemoryState) (system_prompt : String) (include_facts : Bool) : String :=
  if include_facts && !mem.facts.isEmpty then
    system_prompt ++ "\n\n" ++ format_facts mem.facts
  else system_prompt

/-- The inclusion loop of `get_conversation_context`: walk the reversed
conversation (newest first), and while `used_tokens + msg_tokens` does not
exceed the fixed `remaining_tokens` budget, prepend the stripped message
and add its tokens to `used_tokens`; stop at the first message that would
exceed it. Returns the included messages (chronological) and the final
`used_tokens`. -/
def fitLoop (tc : String → Nat) (remaining : Int) :
    Int → List Msg → List ChatMsg → (List ChatMsg × Int)
  | used, [], acc => (acc, used)
  | used, m :: rest, acc =>
    let t : Int := tc m.content
    if remaining < used + t then (acc, used)
    else fitLoop tc remaining (used + t) rest (⟨m.role, m.content⟩ :: acc)

/-- The conversation entries included by `get_conversation_context`:
`used_tokens` starts at the system content's count, and
`remaining_tokens = max_context_tokens - used_tokens - 500` (500 reserved
for the response). -/
def includedEntries (tc : String → Nat) (mem : MemoryState)
    (system_prompt : String) (include_facts : Bool) : List ChatMsg :=
  (fitLoop tc
    ((mem.max_context_tokens : Int) -
      (tc (systemContent mem system_prompt include_facts) : Int) - 500)
    (tc (systemContent mem system_prompt include_facts))
    mem.conversation.reverse []).1

/-- The synthetic omission notice prepended when messages were cut. -/
def omission_notice (cut_count : Nat) : ChatMsg :=
  ⟨"system",
    "[Earlier conversation history of " ++ toString cut_count ++
      " messages omitted to fit context window]"⟩

/-- `Memory.get_conversation_context`: system entry first, then the
omission notice when any message was cut, then the included conversation
entries in chronological order. -/
def get_conversation_context (tc : String → Nat) (mem : MemoryState)
    (system_prompt : String) (include_facts : Bool) : List ChatMsg :=
  let sc := systemContent mem system_prompt include_facts
  let included := includedEntries tc mem system_prompt include_facts
  let included :=
    if included.length < mem.conversation.length then
      omission_notice (mem.conversation.length - included.length) :: included
    else included
  ⟨"system", sc⟩ :: included

/-- Sum of content token counts of rendered messages (no per-entry
overhead), as an integer. -/
def contentTokens (tc : String → Nat) : List ChatMsg → Int
  | [] => 0
  | m :: rest => (tc m.content : Int) + contentTokens tc rest

/-- Stripping a stored message to the rendered role/content pair. -/
def stripMsg (m : Msg) : ChatMsg := ⟨m.role, m.content⟩

lemma fitLoop_sum (tc : String → Nat) (remaining : Int) :
    ∀ (msgs : List Msg) (used : Int) (acc : List ChatMsg),
      (fitLoop tc remaining used msgs acc).2 + contentTokens tc acc =
        used + contentTokens tc (fitLoop tc remaining used msgs acc).1 := by
  intro msgs
  induction msgs with
  | nil => intro used acc; simp [fitLoop]
  | cons m rest ih =>
    intro used acc
    by_cases h : remaining < used + (tc m.content : Int)
    · simp [fitLoop, h]
    · simp only [fitLoop, h, if_false]
      have := ih (used + (tc m.content : Int)) (⟨m.role, m.content⟩ :: acc)
      simp only [contentTokens] at this ⊢
      omega

lemma fitLoop_bound (tc : String → Nat) (remaining : Int) :
    ∀ (msgs : List Msg) (used : Int) (acc : List ChatMsg),
      ((fitLoop tc remaining used msgs acc).1 = acc ∧
        (fitLoop tc remaining used msgs acc).2 = used) ∨
      (fitLoop tc remaining used msgs acc).2 ≤ remaining := by
  intro msgs
  induction msgs with
  | nil => intro used acc; left; simp [fitLoop]
  | cons m rest ih =>
    intro used acc
    by_cases h : remaining < used + (tc m.content : Int)
    · left; simp [fitLoop, h]
    · right
      simp only [fitLoop, h, if_false]
      rcases ih (used + (tc m.content : Int)) (⟨m.role, m.content⟩ :: acc) with ⟨_, h2⟩ | h2
      · omega
      · exact h2

lemma fitLoop_take (tc : String → Nat) (remaining : Int) :
    ∀ (msgs : List Msg) (used : Int) (acc : List ChatMsg),
      ∃ n, n ≤ msgs.length ∧
        (fitLoop tc remaining used msgs acc).1 =
          ((msgs.take n).reverse.map stripMsg) ++ acc := by
  intro msgs
  induction msgs with
  | nil => intro used acc; exact ⟨0, by simp [fitLoop]⟩
  | cons m rest ih =>
    intro used acc
    by_cases h : remaining < used + (tc m.content : Int)
    · exact ⟨0, by simp [fitLoop, h]⟩
    · obtain ⟨n, hn, he⟩ := ih (used + (tc m.content : Int)) (⟨m.role, m.content⟩ :: acc)
      refine ⟨n + 1, by simpa using Nat.succ_le_succ hn, ?_⟩
      simp only [fitLoop, h, if_false]
      rw [he]
      simp [stripMsg, List.take_succ_cons]

/-- Token counter used for concrete instances: one token per character
(an admissible TokenBudget capability). -/
def tcLen : String → Nat := String.length

/-- A string of `n` letters. -/
def aChars (n : Nat) : String := String.mk (List.replicate n 'a')

/-- Concrete memory state refuting the claimed budget bound: limit 600,
empty fact store, a single 100-token message. -/
def memC1 : MemoryState := ⟨600, [⟨"user", aChars 100, "t0"⟩], []⟩

/-- C1 counterexample: with limit 600 and reserve 500, the rendered
sequence for an empty system prompt and one 100-token message measures
108 tokens under `count_messages_tokens` (100 content + 4 overhead each
for the system entry and the message), exceeding the claimed bound
`max_context_tokens - response_reserve = 100`: the code's budget check
ignores the per-entry overhead (and the omission notice), so the claimed
inequality fails. -/
theorem render_budget_cex :
    memC1.max_context_tokens - 500 <
      count_messages_tokens tcLen (get_conversation_context tcLen memC1 "" true) := by
  decide

/-- C1 (amended): whenever at least one conversation entry is included in
the rendered context, the content token count of the system entry plus
the included conversation entries (per-entry overhead and the omission
notice not counted) is at most `max_context_tokens - response_reserve`. -/
theorem render_budget_amended (tc : String → Nat) (mem : MemoryState)
    (system_prompt : String) (include_facts : Bool)
    (h : includedEntries tc mem system_prompt include_facts ≠ []) :
    (tc (systemContent mem system_prompt include_facts) : Int) +
        contentTokens tc (includedEntries tc mem system_prompt include_facts) ≤
      (mem.max_context_tokens : Int) - 500 := by
  unfold includedEntries at h ⊢
  set sc := systemContent mem system_prompt include_facts with hsc
  set remaining : Int := (mem.max_context_tokens : Int) - (tc sc : Int) - 500 with hrem
  have hb := fitLoop_bound tc remaining mem.conversation.reverse (tc sc : Int) []
  have hs := fitLoop_sum tc remaining mem.conversation.reverse (tc sc : Int) []
  rcases hb with ⟨h1, _⟩ | h2
  · exact absurd h1 h
  · simp only [contentTokens] at hs
    have hc : (0 : Int) ≤ (tc sc : Int) := Int.natCast_nonneg _
    omega

/-- A memory state on which the amended budget bound is exercised:
limit 600, one 50-token message, which is included. -/
def memC1w : MemoryState := ⟨600, [⟨"user", aChars 50, "t0"⟩], []⟩

/-- Witness for the amended C1 bound at a concrete input. -/
theorem render_budget_amended_witness :
    includedEntries tcLen memC1w "" true ≠ [] ∧
    (tcLen (systemContent memC1w "" true) : Int) +
        contentTokens tcLen (includedEntries tcLen memC1w "" true) ≤
      (memC1w.max_context_tokens : Int) - 500 :=
  ⟨by decide, render_budget_amended tcLen memC1w "" true (by decide)⟩

/-- C7: the conversation entries included in the rendered context are the
most recent contiguous suffix of the conversation log, in original
chronological order: they are exactly the log minus its first `k` entries,
for some `k`. -/
theorem render_ordered_suffix (tc : String → Nat) (mem : MemoryState)
    (system_prompt : String) (include_facts : Bool) :
    ∃ k, includedEntries tc mem system_prompt include_facts =
      (mem.conversation.drop k).map stripMsg := by
  unfold includedEntries
  set sc := systemContent mem system_prompt include_facts
  set remaining : Int := (mem.max_context_tokens : Int) - (tc sc : Int) - 500
  obtain ⟨n, hn, he⟩ :=
    fitLoop_take tc remaining mem.conversation.reverse (tc sc : Int) []
  refine ⟨mem.conversation.length - n, ?_⟩
  rw [he, List.append_nil, List.take_reverse, List.reverse_reverse]

/-! ## Circuit breaker (templates/tool-calling-agent/agent.py)

Time is modelled as a natural number of seconds passed explicitly to each
operation; `datetime.now() - opened_at > timedelta(seconds=timeout)` becomes
`opened + timeout < now`. -/

/-- The `CircuitBreaker` dataclass: configuration plus per-service failure
counts (`failures.get(service, 0)` modelled as a total map defaulting to 0)
and open timestamps. -/
structure CBState where
  failure_threshold : Nat
  timeout_seconds : Nat
  failures : String → Nat
  opened_at : String → Option Nat

/-- `CircuitBreaker.record_success`: reset the failure count and clear the
open marker for the service. -/
def record_success (st : CBState) (service : String) : CBState :=
  { st with
    failures := fun s => if s = service then 0 else st.failures s,
    opened_at := fun s => if s = service then none else st.opened_at s }

/-- `CircuitBreaker.record_failure`: increment the failure count; once it
reaches `failure_threshold`, stamp the open marker with the current time. -/
def record_failure (st : CBState) (service : String) (now : Nat) : CBState :=
  let f := st.failures service + 1
  let st1 := { st with failures := fun s => if s = service then f else st.failures s }
  if st.failure_threshold ≤ f then
    { st1 with opened_at := fun s => if s = service then some now else st1.opened_at s }
  else st1

/-- `CircuitBreaker.is_open`: false when no open marker; when the timeout
has strictly elapsed, clear the marker (HALF_OPEN) and return false;
otherwise true. Returns the possibly-updated state alongside the answer. -/
def is_open (st : CBState) (service : String) (now : Nat) : Bool × CBState :=
  match st.opened_at service with
  | none => (false, st)
  | some t =>
    if t + st.timeout_seconds < now then
      (false, { st with opened_at := fun s => if s = service then none else st.opened_at s })
    else (true, st)

/-- `record_failure` applied `n` times for one service at one timestamp. -/
def recFailN (service : String) (T : Nat) : Nat → CBState → CBState
  | 0, st => st
  | n + 1, st => record_failure (recFailN service T n st) service T

lemma record_failure_fields (st : CBState) (service : String) (now : Nat) :
    (record_failure st service now).failure_threshold = st.failure_threshold ∧
    (record_failure st service now).timeout_seconds = st.timeout_seconds ∧
    (record_failure st service now).failures service = st.failures service + 1 := by
  by_cases h : st.failure_threshold ≤ st.failures service + 1 <;>
    simp [record_failure, h]

lemma recFailN_fields (service : String) (T : Nat) :
    ∀ (n : Nat) (st : CBState),
      (recFailN service T n st).failure_threshold = st.failure_threshold ∧
      (recFailN service T n st).timeout_seconds = st.timeout_seconds ∧
      (recFailN service T n st).failures service = st.failures service + n := by
  intro n
  induction n with
  | zero => intro st; simp [recFailN]
  | succ n ih =>
    intro st
    obtain ⟨h1, h2, h3⟩ := ih st
    obtain ⟨g1, g2, g3⟩ := record_failure_fields (recFailN service T n st) service T
    refine ⟨by simpa [recFailN, g1] using h1, by simpa [recFailN, g2] using h2, ?_⟩
    simp only [recFailN, g3, h3]
    omega

lemma recFailN_opened (service : String) (T : Nat) (st : CBState) (n : Nat)
    (hn : 1 ≤ n) (hth : st.failure_threshold ≤ st.failures service + n) :
    (recFailN service T n st).opened_at service = some T := by
  cases n with
  | zero => omega
  | succ n =>
    obtain ⟨h1, _, h3⟩ := recFailN_fields service T n st
    simp only [recFailN, record_failure, h1, h3]
    rw [if_pos (by omega)]
    simp

/-- A fresh breaker with threshold 1 and timeout 60, then one failure for
service x at time 0: the circuit opens at time 0. -/
def stBoundary : CBState :=
  record_failure ⟨1, 60, fun _ => 0, fun _ => none⟩ "x" 0

/-- C2 counterexample: the circuit opened at time 0 with timeout 60; at
time 60 the elapsed time equals the timeout (`now - opened_at >=
timeout_seconds` holds), yet `is_open` still returns true — the code
requires the elapsed time to strictly exceed the timeout before the
HALF_OPEN transition, so the claimed `>=` boundary is wrong. -/
theorem circuit_timeout_boundary_cex :
    stBoundary.opened_at "x" = some 0 ∧
    stBoundary.timeout_seconds = 60 ∧
    60 - 0 ≥ stBoundary.timeout_seconds ∧
    (is_open stBoundary "x" 60).1 = true := by
  refine ⟨rfl, rfl, by decide, rfl⟩

/-- C2 (amended): after `failure_threshold` consecutive `record_failure`
calls (threshold at least one, no intervening success) the circuit reports
open immediately; once `now - opened_at` strictly exceeds
`timeout_seconds`, the next `is_open` call returns false and clears the
open marker (HALF_OPEN) exactly once — further `is_open` calls leave the
state untouched — until a subsequent failure re-opens the circuit. -/
theorem circuit_open_then_halfopen (st : CBState) (c : String) (T now t2 t3 : Nat)
    (hf : st.failures c = 0) (hth : 1 ≤ st.failure_threshold)
    (hnow : T + st.timeout_seconds < now) :
    (is_open (recFailN c T st.failure_threshold st) c T).1 = true ∧
    (is_open (recFailN c T st.failure_threshold st) c now).1 = false ∧
    ((is_open (recFailN c T st.failure_threshold st) c now).2).opened_at c = none ∧
    (is_open ((is_open (recFailN c T st.failure_threshold st) c now).2) c t2) =
      (false, (is_open (recFailN c T st.failure_threshold st) c now).2) ∧
    (record_failure ((is_open (recFailN c T st.failure_threshold st) c now).2) c t3).opened_at c
      = some t3 := by
  obtain ⟨e1, e2, e3⟩ := recFailN_fields c T st.failure_threshold st
  have hop : (recFailN c T st.failure_threshold st).opened_at c = some T :=
    recFailN_opened c T st st.failure_threshold hth (by omega)
  have h1 : (is_open (recFailN c T st.failure_threshold st) c T).1 = true := by
    simp only [is_open, hop]
    rw [if_neg (by omega)]
  have h2 : is_open (recFailN c T st.failure_threshold st) c now =
      (false, { recFailN c T st.failure_threshold st with
        opened_at := fun s =>
          if s = c then none else (recFailN c T st.failure_threshold st).opened_at s }) := by
    simp only [is_open, hop]
    rw [if_pos (by omega)]
  refine ⟨h1, by rw [h2], by rw [h2]; simp, ?_, ?_⟩
  · rw [h2]
    simp [is_open]
  · rw [h2]
    simp only [record_failure, e1, e3, hf]
    rw [if_pos (by omega)]
    simp

/-- Witness for the amended C2 statement: threshold 1, timeout 60, one
failure at time 0, the probe at time 61, a new failure at time 100. -/
theorem circuit_open_then_halfopen_witness :
    (is_open (recFailN "x" 0
      (CBState.failure_threshold ⟨1, 60, fun _ => 0, fun _ => none⟩)
      ⟨1, 60, fun _ => 0, fun _ => none⟩) "x" 0).1 = true ∧
    (is_open (recFailN "x" 0
      (CBState.failure_threshold ⟨1, 60, fun _ => 0, fun _ => none⟩)
      ⟨1, 60, fun _ => 0, fun _ => none⟩) "x" 61).1 = false ∧
    ((is_open (recFailN "x" 0
      (CBState.failure_threshold ⟨1, 60, fun _ => 0, fun _ => none⟩)
      ⟨1, 60, fun _ => 0, fun _ => none⟩) "x" 61).2).opened_at "x" = none ∧
    (is_open ((is_open (recFailN "x" 0
      (CBState.failure_threshold ⟨1, 60, fun _ => 0, fun _ => none⟩)
      ⟨1, 60, fun _ => 0, fun _ => none⟩) "x" 61).2) "x" 61) =
      (false, (is_open (recFailN "x" 0
        (CBState.failure_threshold ⟨1, 60, fun _ => 0, fun _ => none⟩)
        ⟨1, 60, fun _ => 0, fun _ => none⟩) "x" 61).2) ∧
    (record_failure ((is_open (recFailN "x" 0
      (CBState.failure_threshold ⟨1, 60, fun _ => 0, fun _ => none⟩)
      ⟨1, 60, fun _ => 0, fun _ => none⟩) "x" 61).2) "x" 100).opened_at "x" = some 100 :=
  circuit_open_then_halfopen ⟨1, 60, fun _ => 0, fun _ => none⟩ "x" 0 61 61 100
    rfl (by decide) (by decide)

/-- Breaker states reachable from a fresh `CircuitBreaker()` instance
through its three operations. -/
inductive Reach : CBState → Prop
  | start (th to_ : Nat) : Reach ⟨th, to_, fun _ => 0, fun _ => none⟩
  | success (st : CBState) (c : String) : Reach st → Reach (record_success st c)
  | failure (st : CBState) (c : String) (now : Nat) : Reach st → Reach (record_failure st c now)
  | probe (st : CBState) (c : String) (now : Nat) : Reach st → Reach ((is_open st c now).2)

/-- Invariant: in every reachable breaker state, a service whose circuit
is open has at least `failure_threshold` recorded failures. -/
lemma reach_open_threshold {st : CBState} (hr : Reach st) :
    ∀ (c : String) (t : Nat), st.opened_at c = some t →
      st.failure_threshold ≤ st.failures c := by
  induction hr with
  | start th to_ => intro c t h; simp at h
  | success st c0 _ ih =>
    intro c t h
    by_cases hc : c = c0
    · simp [record_success, hc] at h
    · simp only [record_success, if_neg hc] at h ⊢
      exact ih c t h
  | failure st c0 now _ ih =>
    intro c t h
    by_cases hle : st.failure_threshold ≤ st.failures c0 + 1
    · simp only [record_failure, if_pos hle] at h ⊢
      by_cases hc : c = c0
      · subst hc; simpa using hle
      · simp only [if_neg hc] at h ⊢
        exact ih c t h
    · simp only [record_failure, if_neg hle] at h ⊢
      by_cases hc : c = c0
      · subst hc
        simp only [if_pos rfl]
        exact Nat.le_succ_of_le (ih c t h)
      · simp only [if_neg hc]
        exact ih c t h
  | probe st c0 now _ ih =>
    intro c t h
    rcases ho : st.opened_at c0 with _ | t0
    · simp only [is_open, ho] at h ⊢
      exact ih c t h
    · simp only [is_open, ho] at h ⊢
      by_cases ht : t0 + st.timeout_seconds < now
      · rw [if_pos ht] at h ⊢
        simp only at h ⊢
        by_cases hc : c = c0
        · simp [hc] at h
        · simp only [if_neg hc] at h
          exact ih c t h
      · rw [if_neg ht] at h ⊢
        exact ih c t h

/-- C10: when `is_open` takes the OPEN-to-HALF_OPEN transition (the
timeout has elapsed on a reachable open state), the service's failure
count is not reset: it stays equal to its pre-transition value and at or
above `failure_threshold`, so one further `record_failure` immediately
re-opens the circuit (and increments the count rather than resetting it);
only `record_success` resets the count to zero. -/
theorem halfopen_keeps_failures (st : CBState) (hr : Reach st) (c : String)
    (t0 now t2 : Nat) (hop : st.opened_at c = some t0)
    (ht : t0 + st.timeout_seconds < now) :
    (is_open st c now).1 = false ∧
    ((is_open st c now).2).failures c = st.failures c ∧
    st.failure_threshold ≤ ((is_open st c now).2).failures c ∧
    (record_failure ((is_open st c now).2) c t2).opened_at c = some t2 ∧
    (record_failure ((is_open st c now).2) c t2).failures c = st.failures c + 1 ∧
    (record_success ((is_open st c now).2) c).failures c = 0 := by
  have hinv := reach_open_threshold hr c t0 hop
  have h2 : is_open st c now =
      (false, { st with opened_at := fun s => if s = c then none else st.opened_at s }) := by
    simp only [is_open, hop]
    rw [if_pos ht]
  rw [h2]
  refine ⟨rfl, rfl, hinv, ?_, ?_, ?_⟩
  · simp only [record_failure]
    rw [if_pos (by simpa using Nat.le_succ_of_le hinv)]
    simp
  · simp only [record_failure]
    split <;> simp
  · simp [record_success]

/-- A concrete reachable open state: threshold 1, timeout 60, one failure
for service x recorded at time 0. -/
def stC10 : CBState := record_failure ⟨1, 60, fun _ => 0, fun _ => none⟩ "x" 0

/-- Witness for C10 at the concrete reachable state `stC10`, probed at
time 61 and re-failed at time 100. -/
theorem halfopen_keeps_failures_witness :
    (is_open stC10 "x" 61).1 = false ∧
    ((is_open stC10 "x" 61).2).failures "x" = stC10.failures "x" ∧
    stC10.failure_threshold ≤ ((is_open stC10 "x" 61).2).failures "x" ∧
    (record_failure ((is_open stC10 "x" 61).2) "x" 100).opened_at "x" = some 100 ∧
    (record_failure ((is_open stC10 "x" 61).2) "x" 100).failures "x" = stC10.failures "x" + 1 ∧
    (record_success ((is_open stC10 "x" 61).2) "x").failures "x" = 0 :=
  halfopen_keeps_failures stC10
    (Reach.failure ⟨1, 60, fun _ => 0, fun _ => none⟩ "x" 0 (Reach.start 1 60))
    "x" 0 61 100 rfl (by decide)

/-! ## Resilient tool execution (templates/tool-calling-agent/agent.py)

`execute_tool_with_retry` is the tenacity-wrapped body: circuit check,
registry lookup, tool call, breaker bookkeeping; the decorator retries up
to `stop_after_attempt(3)` on RetryableError only and re-raises anything
else. A capability's behaviour is a function from the attempt number to
what that invocation does; the `str()` / `json.dumps` stringification of
a successful payload is folded into the success payload. The backoff
delays between attempts are real-time behaviour and are represented only
by the per-attempt clock `times`. -/

/-- The classified exceptions raised to the caller. -/
inductive Exn
  | retryableErr (msg : String)
  | permanentErr (msg : String)
deriving DecidableEq

/-- What a capability invocation does: succeed, raise RetryableError,
raise PermanentError, or raise an unclassified exception. -/
inductive AttemptResult
  | success (payload : String)
  | retryable (msg : String)
  | permanent (msg : String)
  | unclassified (msg : String)
deriving DecidableEq

/-- Result of the resilient executor: the outcome (normal return or
propagated exception), the final breaker state, and how many times the
underlying capability was actually invoked. -/
structure ExecResult where
  outcome : Except Exn String
  state : CBState
  attempts : Nat

/-- One pass of the `execute_tool_with_retry` body at attempt `k`:
fast-fail on an open circuit (PermanentError raised, no attempt, no
failure recorded), PermanentError on an unknown tool, otherwise invoke
the capability: success records a success; RetryableError records a
failure and re-raises; PermanentError and unclassified exceptions are
caught and returned as error text with no breaker update. The boolean
reports whether the capability was invoked. -/
def execute_body (tools : String → Option (Nat → AttemptResult)) (st : CBState)
    (tool_name : String) (now k : Nat) : Except Exn String × CBState × Bool :=
  let g := is_open st tool_name now
  if g.1 then
    (Except.error (Exn.permanentErr
      (tool_name ++ " is currently unavailable, please try again later")), g.2, false)
  else
    match tools tool_name with
    | none => (Except.error (Exn.permanentErr ("Unknown tool: " ++ tool_name)), g.2, false)
    | some behaviour =>
      match behaviour k with
      | AttemptResult.success p => (Except.ok p, record_success g.2 tool_name, true)
      | AttemptResult.retryable m =>
        (Except.error (Exn.retryableErr m), record_failure g.2 tool_name now, true)
      | AttemptResult.permanent m => (Except.ok ("Error: " ++ m), g.2, true)
      | AttemptResult.unclassified m => (Except.ok ("Unexpected error: " ++ m), g.2, true)

/-- The tenacity retry loop: run the body; on RetryableError retry while
attempts remain, otherwise surface the last exception
(`reraise=True`); any other outcome is final. -/
def retryGo (tools : String → Option (Nat → AttemptResult)) (tool_name : String)
    (times : Nat → Nat) : Nat → Nat → CBState → Nat → ExecResult
  | 0, _, st, a => ⟨Except.error (Exn.retryableErr ""), st, a⟩
  | fuel + 1, k, st, a =>
    let r := execute_body tools st tool_name (times k) k
    let a2 := if r.2.2 then a + 1 else a
    match r.1 with
    | Except.error (Exn.retryableErr m) =>
      if fuel = 0 then ⟨Except.error (Exn.retryableErr m), r.2.1, a2⟩
      else retryGo tools tool_name times fuel (k + 1) r.2.1 a2
    | out => ⟨out, r.2.1, a2⟩

/-- `execute_tool_with_retry` under `stop_after_attempt(3)`: attempt
numbers run 1, 2, 3, with `times k` the clock at attempt `k`. -/
def execute_tool_with_retry (tools : String → Option (Nat → AttemptResult))
    (times : Nat → Nat) (st : CBState) (tool_name : String) : ExecResult :=
  retryGo tools tool_name times 3 1 st 0

lemma is_open_none (st : CBState) (c : String) (now : Nat)
    (h : st.opened_at c = none) : is_open st c now = (false, st) := by
  simp [is_open, h]

lemma is_open_true_state (st : CBState) (c : String) (now : Nat)
    (h : (is_open st c now).1 = true) : (is_open st c now).2 = st := by
  rcases ho : st.opened_at c with _ | t
  · simp [is_open, ho] at h
  · simp only [is_open, ho] at h ⊢
    by_cases ht : t + st.timeout_seconds < now
    · rw [if_pos ht] at h; simp at h
    · rw [if_neg ht]

lemma is_open_failures (st : CBState) (c : String) (now : Nat) :
    ((is_open st c now).2).failures = st.failures := by
  rcases ho : st.opened_at c with _ | t
  · simp [is_open, ho]
  · simp only [is_open, ho]
    by_cases ht : t + st.timeout_seconds < now
    · rw [if_pos ht]
    · rw [if_neg ht]

lemma record_failure_noopen (st : CBState) (c : String) (now : Nat)
    (h : st.failures c + 1 < st.failure_threshold) :
    (record_failure st c now).opened_at = st.opened_at ∧
    (record_failure st c now).failures c = st.failures c + 1 ∧
    (record_failure st c now).failure_threshold = st.failure_threshold := by
  simp only [record_failure]
  rw [if_neg (by omega)]
  simp

lemma retryGo_step_retryable (tools : String → Option (Nat → AttemptResult))
    (tool_name : String) (times : Nat → Nat) (fuel k a : Nat) (st st2 : CBState)
    (m : String) (hfuel : fuel ≠ 0)
    (hbody : execute_body tools st tool_name (times k) k =
      (Except.error (Exn.retryableErr m), st2, true)) :
    retryGo tools tool_name times (fuel + 1) k st a =
      retryGo tools tool_name times fuel (k + 1) st2 (a + 1) := by
  simp [retryGo, hbody, hfuel]

lemma retryGo_last_retryable (tools : String → Option (Nat → AttemptResult))
    (tool_name : String) (times : Nat → Nat) (k a : Nat) (st st2 : CBState)
    (m : String)
    (hbody : execute_body tools st tool_name (times k) k =
      (Except.error (Exn.retryableErr m), st2, true)) :
    retryGo tools tool_name times 1 k st a =
      ⟨Except.error (Exn.retryableErr m), st2, a + 1⟩ := by
  rw [show (1 : Nat) = 0 + 1 from rfl]
  simp [retryGo, hbody]

lemma retryGo_step_ok (tools : String → Option (Nat → AttemptResult))
    (tool_name : String) (times : Nat → Nat) (fuel k a : Nat) (st st2 : CBState)
    (s : String) (invoked : Bool)
    (hbody : execute_body tools st tool_name (times k) k =
      (Except.ok s, st2, invoked)) :
    retryGo tools tool_name times (fuel + 1) k st a =
      ⟨Except.ok s, st2, if invoked then a + 1 else a⟩ := by
  simp only [retryGo, hbody]

lemma retryGo_step_perm (tools : String → Option (Nat → AttemptResult))
    (tool_name : String) (times : Nat → Nat) (fuel k a : Nat) (st st2 : CBState)
    (m : String) (invoked : Bool)
    (hbody : execute_body tools st tool_name (times k) k =
      (Except.error (Exn.permanentErr m), st2, invoked)) :
    retryGo tools tool_name times (fuel + 1) k st a =
      ⟨Except.error (Exn.permanentErr m), st2, if invoked then a + 1 else a⟩ := by
  simp only [retryGo, hbody]

/-- C5: when the circuit for a capability reports open at invocation
time, the executor raises PermanentError ("currently unavailable")
immediately: the capability is never invoked (zero attempts) and the
breaker state is returned exactly as it was — the fast-fail path records
no failure. -/
theorem circuit_fastfail (tools : String → Option (Nat → AttemptResult))
    (times : Nat → Nat) (st : CBState) (tool_name : String)
    (h : (is_open st tool_name (times 1)).1 = true) :
    execute_tool_with_retry tools times st tool_name =
      ⟨Except.error (Exn.permanentErr
        (tool_name ++ " is currently unavailable, please try again later")), st, 0⟩ := by
  have hst := is_open_true_state st tool_name (times 1) h
  have hbody : execute_body tools st tool_name (times 1) 1 =
      (Except.error (Exn.permanentErr
        (tool_name ++ " is currently unavailable, please try again later")), st, false) := by
    simp [execute_body, h, hst]
  unfold execute_tool_with_retry
  rw [show (3 : Nat) = 2 + 1 from rfl,
    retryGo_step_perm tools tool_name times 2 1 0 st st _ false hbody]
  simp

/-- A breaker state whose circuit for service x is open (threshold 5
reached at time 0, timeout 60). -/
def stOpen : CBState :=
  ⟨5, 60, fun s => if s = "x" then 5 else 0, fun s => if s = "x" then some 0 else none⟩

/-- Witness for C5: fast-fail on the concrete open state `stOpen` at
time 10, with a registry that would succeed if it were ever consulted. -/
theorem circuit_fastfail_witness :
    execute_tool_with_retry
        (fun n => if n = "x" then some (fun _ => AttemptResult.success "ok") else none)
        (fun _ => 10) stOpen "x" =
      ⟨Except.error (Exn.permanentErr
        ("x" ++ " is currently unavailable, please try again later")), stOpen, 0⟩ :=
  circuit_fastfail
    (fun n => if n = "x" then some (fun _ => AttemptResult.success "ok") else none)
    (fun _ => 10) stOpen "x" rfl

/-- The fresh global breaker (`CircuitBreaker()`: threshold 5, timeout
60, no failures recorded). -/
def cbInit : CBState := ⟨5, 60, fun _ => 0, fun _ => none⟩

/-- Registry with a capability raising PermanentError on every attempt. -/
def toolsPerm : String → Option (Nat → AttemptResult) :=
  fun n => if n = "get_weather" then
    some (fun _ => AttemptResult.permanent "Unknown city: Berlin") else none

/-- C3 counterexample: a PermanentError raised by the capability on a
fresh breaker is attempted once and surfaced immediately as the failure
text, but the breaker's consecutive-failure count for the capability is
NOT incremented: it stays at 0, refuting the claim that the executor
records a failure against the breaker on PermanentFailure. -/
theorem permanent_no_breaker_record_cex :
    (execute_tool_with_retry toolsPerm (fun _ => 0) cbInit "get_weather").attempts = 1 ∧
    (execute_tool_with_retry toolsPerm (fun _ => 0) cbInit "get_weather").outcome =
      Except.ok "Error: Unknown city: Berlin" ∧
    cbInit.failures "get_weather" = 0 ∧
    (execute_tool_with_retry toolsPerm (fun _ => 0) cbInit "get_weather").state.failures
      "get_weather" = 0 :=
  ⟨rfl, rfl, rfl, rfl⟩

/-- C3 (amended): on PermanentFailure or an unclassified fault the
executor does not retry (exactly one attempt), returns the failure text
immediately, and records no failure against the breaker: the failure
counts are left exactly as the initial circuit check left them
(and that check never changes failure counts). -/
theorem permanent_failure_no_record (tools : String → Option (Nat → AttemptResult))
    (times : Nat → Nat) (st : CBState) (tool_name : String)
    (behaviour : Nat → AttemptResult) (m : String)
    (hop : (is_open st tool_name (times 1)).1 = false)
    (ht : tools tool_name = some behaviour) :
    ((is_open st tool_name (times 1)).2).failures = st.failures ∧
    (behaviour 1 = AttemptResult.permanent m →
      execute_tool_with_retry tools times st tool_name =
        ⟨Except.ok ("Error: " ++ m), (is_open st tool_name (times 1)).2, 1⟩) ∧
    (behaviour 1 = AttemptResult.unclassified m →
      execute_tool_with_retry tools times st tool_name =
        ⟨Except.ok ("Unexpected error: " ++ m), (is_open st tool_name (times 1)).2, 1⟩) := by
  refine ⟨is_open_failures st tool_name (times 1), ?_, ?_⟩ <;> intro hb
  · have hbody : execute_body tools st tool_name (times 1) 1 =
        (Except.ok ("Error: " ++ m), (is_open st tool_name (times 1)).2, true) := by
      simp [execute_body, hop, ht, hb]
    unfold execute_tool_with_retry
    rw [show (3 : Nat) = 2 + 1 from rfl,
      retryGo_step_ok tools tool_name times 2 1 0 st _ _ true hbody]
    simp
  · have hbody : execute_body tools st tool_name (times 1) 1 =
        (Except.ok ("Unexpected error: " ++ m), (is_open st tool_name (times 1)).2, true) := by
      simp [execute_body, hop, ht, hb]
    unfold execute_tool_with_retry
    rw [show (3 : Nat) = 2 + 1 from rfl,
      retryGo_step_ok tools tool_name times 2 1 0 st _ _ true hbody]
    simp

/-- Registry with a capability raising an unclassified exception. -/
def toolsUnc : String → Option (Nat → AttemptResult) :=
  fun n => if n = "query_database" then
    some (fun _ => AttemptResult.unclassified "boom") else none

/-- Witness for the amended C3 at concrete inputs, one PermanentError
capability and one unclassified-fault capability. -/
theorem permanent_failure_no_record_witness :
    ((is_open cbInit "get_weather" 0).2).failures = cbInit.failures ∧
    execute_tool_with_retry toolsPerm (fun _ => 0) cbInit "get_weather" =
      ⟨Except.ok ("Error: " ++ "Unknown city: Berlin"), (is_open cbInit "get_weather" 0).2, 1⟩ ∧
    execute_tool_with_retry toolsUnc (fun _ => 0) cbInit "query_database" =
      ⟨Except.ok ("Unexpected error: " ++ "boom"), (is_open cbInit "query_database" 0).2, 1⟩ :=
  ⟨(permanent_failure_no_record toolsPerm (fun _ => 0) cbInit "get_weather"
      (fun _ => AttemptResult.permanent "Unknown city: Berlin") "Unknown city: Berlin"
      rfl rfl).1,
   (permanent_failure_no_record toolsPerm (fun _ => 0) cbInit "get_weather"
      (fun _ => AttemptResult.permanent "Unknown city: Berlin") "Unknown city: Berlin"
      rfl rfl).2.1 rfl,
   (permanent_failure_no_record toolsUnc (fun _ => 0) cbInit "query_database"
      (fun _ => AttemptResult.unclassified "boom") "boom" rfl rfl).2.2 rfl⟩

/-- C4: with the circuit closed and far from its threshold, a capability
raising only RetryableFailure is attempted exactly 3 times
(`stop_after_attempt(3)`) and the third RetryableFailure is surfaced as
the final outcome; a capability raising PermanentFailure on the first
attempt is attempted exactly once and its error text returned
immediately. The backoff delays between attempts are real time and are
outside the model. -/
theorem retry_attempt_counts :
    (∀ (tools : String → Option (Nat → AttemptResult)) (times : Nat → Nat)
       (st : CBState) (tool_name : String) (behaviour : Nat → AttemptResult)
       (msgs : Nat → String),
       st.opened_at tool_name = none →
       st.failures tool_name + 2 < st.failure_threshold →
       tools tool_name = some behaviour →
       (∀ k, behaviour k = AttemptResult.retryable (msgs k)) →
       (execute_tool_with_retry tools times st tool_name).outcome =
         Except.error (Exn.retryableErr (msgs 3)) ∧
       (execute_tool_with_retry tools times st tool_name).attempts = 3) ∧
    (∀ (tools : String → Option (Nat → AttemptResult)) (times : Nat → Nat)
       (st : CBState) (tool_name : String) (behaviour : Nat → AttemptResult)
       (m : String),
       st.opened_at tool_name = none →
       tools tool_name = some behaviour →
       behaviour 1 = AttemptResult.permanent m →
       (execute_tool_with_retry tools times st tool_name).outcome =
         Except.ok ("Error: " ++ m) ∧
       (execute_tool_with_retry tools times st tool_name).attempts = 1) := by
  constructor
  · intro tools times st tool_name behaviour msgs hop hth ht hr
    have hb1 : execute_body tools st tool_name (times 1) 1 =
        (Except.error (Exn.retryableErr (msgs 1)),
          record_failure st tool_name (times 1), true) := by
      simp [execute_body, is_open_none st tool_name (times 1) hop, ht, hr 1]
    obtain ⟨f1o, f1f, f1t⟩ :=
      record_failure_noopen st tool_name (times 1) (by omega)
    have hop1 : (record_failure st tool_name (times 1)).opened_at tool_name = none := by
      rw [f1o]; exact hop
    have hb2 : execute_body tools (record_failure st tool_name (times 1)) tool_name
        (times 2) 2 =
        (Except.error (Exn.retryableErr (msgs 2)),
          record_failure (record_failure st tool_name (times 1)) tool_name (times 2),
          true) := by
      simp [execute_body, is_open_none _ tool_name (times 2) hop1, ht, hr 2]
    obtain ⟨f2o, f2f, f2t⟩ :=
      record_failure_noopen (record_failure st tool_name (times 1)) tool_name (times 2)
        (by rw [f1f, f1t]; omega)
    have hop2 : (record_failure (record_failure st tool_name (times 1)) tool_name
        (times 2)).opened_at tool_name = none := by
      rw [f2o]; exact hop1
    have hb3 : execute_body tools
        (record_failure (record_failure st tool_name (times 1)) tool_name (times 2))
        tool_name (times 3) 3 =
        (Except.error (Exn.retryableErr (msgs 3)),
          record_failure
            (record_failure (record_failure st tool_name (times 1)) tool_name (times 2))
            tool_name (times 3), true) := by
      simp [execute_body, is_open_none _ tool_name (times 3) hop2, ht, hr 3]
    have e : execute_tool_with_retry tools times st tool_name =
        ⟨Except.error (Exn.retryableErr (msgs 3)),
          record_failure
            (record_failure (record_failure st tool_name (times 1)) tool_name (times 2))
            tool_name (times 3), 3⟩ := by
      unfold execute_tool_with_retry
      rw [show (3 : Nat) = 2 + 1 from rfl,
        retryGo_step_retryable tools tool_name times 2 1 0 st _ _ (by decide) hb1,
        retryGo_step_retryable tools tool_name times 1 2 1 _ _ _ (by decide) hb2,
        retryGo_last_retryable tools tool_name times 3 2 _ _ _ hb3]
    rw [e]
    exact ⟨rfl, rfl⟩
  · intro tools times st tool_name behaviour m hop ht hb
    have hbody : execute_body tools st tool_name (times 1) 1 =
        (Except.ok ("Error: " ++ m), st, true) := by
      simp [execute_body, is_open_none st tool_name (times 1) hop, ht, hb]
    have e : execute_tool_with_retry tools times st tool_name =
        ⟨Except.ok ("Error: " ++ m), st, 1⟩ := by
      unfold execute_tool_with_retry
      rw [show (3 : Nat) = 2 + 1 from rfl,
        retryGo_step_ok tools tool_name times 2 1 0 st st _ true hbody]
      simp
    rw [e]
    exact ⟨rfl, rfl⟩

/-- Registry whose weather capability raises RetryableError on every
attempt. -/
def toolsRetry : String → Option (Nat → AttemptResult) :=
  fun n => if n = "get_weather" then
    some (fun k => AttemptResult.retryable ("timeout " ++ toString k)) else none

/-- Witness for C4 at concrete inputs: an always-RetryableFailure
capability is attempted 3 times on the fresh breaker and the third error
is surfaced; a first-attempt PermanentFailure capability is attempted
once. -/
theorem retry_attempt_counts_witness :
    ((execute_tool_with_retry toolsRetry (fun _ => 0) cbInit "get_weather").outcome =
        Except.error (Exn.retryableErr ("timeout " ++ toString 3)) ∧
      (execute_tool_with_retry toolsRetry (fun _ => 0) cbInit "get_weather").attempts = 3) ∧
    ((execute_tool_with_retry toolsPerm (fun _ => 0) cbInit "get_weather").outcome =
        Except.ok ("Error: " ++ "Unknown city: Berlin") ∧
      (execute_tool_with_retry toolsPerm (fun _ => 0) cbInit "get_weather").attempts = 1) :=
  ⟨retry_attempt_counts.1 toolsRetry (fun _ => 0) cbInit "get_weather"
      (fun k => AttemptResult.retryable ("timeout " ++ toString k))
      (fun k => "timeout " ++ toString k) rfl (by decide) rfl (fun _ => rfl),
    retry_attempt_counts.2 toolsPerm (fun _ => 0) cbInit "get_weather"
      (fun _ => AttemptResult.permanent "Unknown city: Berlin") "Unknown city: Berlin"
      rfl rfl rfl⟩

/-! ## Multi-agent orchestrator (templates/multi-agent-orchestrator/orchestrator.py) -/

/-- The specialist agent categories (`AgentType` enum). -/
inductive AgentType
  | research
  | analysis
  | writing
deriving DecidableEq

/-- An execution step of the plan: the agent, its task text and its
dependency list (`depends_on`, absent for the research step, modelled as
the empty list the executor defaults to). -/
structure ExecStep where
  agent : AgentType
  task : String
  depends_on : List AgentType
deriving DecidableEq

/-- Does `front` begin the character list `l`? -/
def charsStartWith : List Char → List Char → Bool
  | [], _ => true
  | _ :: _, [] => false
  | a :: as, b :: bs => a == b && charsStartWith as bs

/-- Does `needle` occur contiguously inside `l`? -/
def charsHave (needle : List Char) : List Char → Bool
  | [] => needle.isEmpty
  | b :: bs => charsStartWith needle (b :: bs) || charsHave needle bs

/-- Python's `needle in hay` substring test. -/
def pyIn (needle hay : String) : Bool := charsHave needle.toList hay.toList

/-- Python's `str.lower()` (`task.lower()`), mapping each character to
lower case. -/
def strToLower (s : String) : String := String.mk (s.toList.map Char.toLower)

/-- Keyword lists of `_create_plan`. -/
def research_keywords : List String := ["research", "find", "information", "facts", "data"]

/-- Keywords selecting the analysis agent. -/
def analysis_keywords : List String := ["analyze", "insights", "patterns", "why", "compare"]

/-- Keywords selecting the writing agent. -/
def writing_keywords : List String := ["write", "draft", "create", "summarize", "explain"]

/-- `any(word in task_lower for word in [...])` for the research list. -/
def needs_research (task : String) : Bool :=
  research_keywords.any (fun w => pyIn w (strToLower task))

/-- Keyword test for the analysis category. -/
def needs_analysis (task : String) : Bool :=
  analysis_keywords.any (fun w => pyIn w (strToLower task))

/-- Keyword test for the writing category. -/
def needs_writing (task : String) : Bool :=
  writing_keywords.any (fun w => pyIn w (strToLower task))

/-- `Orchestrator._create_plan`: one step per matched category in the
fixed order research, analysis, writing; analysis depends on research
when research matched; writing depends on analysis when analysis
matched, else on research when research matched; a single writing step
over the raw task when nothing matched. -/
def create_plan (task : String) : List ExecStep :=
  let steps :=
    (if needs_research task then
      [⟨AgentType.research, "Research the following: " ++ task, []⟩] else []) ++
    (if needs_analysis task then
      [⟨AgentType.analysis, "Analyze the following: " ++ task,
        if needs_research task then [AgentType.research] else []⟩] else []) ++
    (if needs_writing task then
      [⟨AgentType.writing, "Write a clear explanation of: " ++ task,
        if needs_analysis task then [AgentType.analysis]
        else if needs_research task then [AgentType.research] else []⟩] else [])
  if steps.isEmpty then [⟨AgentType.writing, task, []⟩] else steps

/-- C6 counterexample: the task "find patterns write" matches all three
categories, and the plan's dependency lists are exactly [], [research],
[analysis]: the writing step depends only on analysis — research is not
among its dependencies, contradicting the claim that each step depends on
ALL earlier matched categories. -/
theorem plan_depends_cex :
    (create_plan "find patterns write").map ExecStep.depends_on =
      [[], [AgentType.research], [AgentType.analysis]] ∧
    AgentType.research ∉ [AgentType.analysis] := by
  exact ⟨by decide, by decide⟩

/-- Task text the plan gives each category's step. -/
def stepTask (c : AgentType) (task : String) : String :=
  match c with
  | AgentType.research => "Research the following: " ++ task
  | AgentType.analysis => "Analyze the following: " ++ task
  | AgentType.writing => "Write a clear explanation of: " ++ task

/-- The matched categories of a task, in the fixed order research,
analysis, writing. -/
def matchedCategories (task : String) : List AgentType :=
  (if needs_research task then [AgentType.research] else []) ++
  (if needs_analysis task then [AgentType.analysis] else []) ++
  (if needs_writing task then [AgentType.writing] else [])

/-- A linear chain of steps over the matched categories: each step
depends exactly on the most recent earlier matched category (none for
the first). -/
def chainSteps (task : String) : Option AgentType → List AgentType → List ExecStep
  | _, [] => []
  | prev, c :: cs =>
    ⟨c, stepTask c task,
      match prev with
      | none => []
      | some p => [p]⟩ :: chainSteps task (some c) cs

/-- Statement of the amended C6 claim: steps exactly for the matched
categories in fixed order, each depending on the most recent earlier
matched category only (a linear chain), with a single dependency-free
writing step over the raw task when no category matches. -/
def planSpec (task : String) : List ExecStep :=
  match matchedCategories task with
  | [] => [⟨AgentType.writing, task, []⟩]
  | cats => chainSteps task none cats

/-- C6 (amended): the plan built by the orchestrator is exactly the
linear-chain plan over the matched categories described by `planSpec`. -/
theorem plan_is_linear_chain (task : String) : create_plan task = planSpec task := by
  cases hnr : needs_research task <;> cases hna : needs_analysis task <;>
    cases hnw : needs_writing task <;>
      simp [create_plan, planSpec, matchedCategories, chainSteps, stepTask,
        hnr, hna, hnw]

/-- An `AgentResult`: success flag, payload (`data`, textual for a
successful specialist; failures carry no payload) and optional error. -/
structure AgentResult where
  success : Bool
  data : String
  error : Option String
deriving DecidableEq

/-- The per-category results recorded by `_execute_plan` (a dict keyed by
`AgentType`, so at most one result per category). -/
structure StepResults where
  research : Option AgentResult
  analysis : Option AgentResult
  writing : Option AgentResult
deriving DecidableEq

/-- Membership of a category's payload in `successful_results`. -/
def successfulData : Option AgentResult → Option String
  | some r => if r.success then some r.data else none
  | none => none

/-- `Orchestrator._synthesize_results`: the all-failed fixed message when
no result succeeded; otherwise build the research-then-analysis sections
and return the writing payload when it succeeded, else the sections
joined by blank lines. -/
def synthesize_results (res : StepResults) : String :=
  if (successfulData res.research).isNone && (successfulData res.analysis).isNone &&
      (successfulData res.writing).isNone then
    "Error: All agents failed to produce results."
  else
    let sections :=
      (match successfulData res.research with
       | some d => ["## Research Findings\n\n" ++ d]
       | none => []) ++
      (match successfulData res.analysis with
       | some d => ["## Analysis\n\n" ++ d]
       | none => [])
    match successfulData res.writing with
    | some d => d
    | none => String.intercalate "\n\n" sections

/-- Statement of the C8 claim in its own terms: the writing payload
whenever writing succeeded; otherwise the successful research and
analysis payloads under labeled headings in research-then-analysis
order; the fixed failure message when every step failed. -/
def synthSpec (res : StepResults) : String :=
  match successfulData res.writing with
  | some d => d
  | none =>
    match successfulData res.research, successfulData res.analysis with
    | none, none => "Error: All agents failed to produce results."
    | some r, none => "## Research Findings\n\n" ++ r
    | none, some a => "## Analysis\n\n" ++ a
    | some r, some a =>
      ("## Research Findings\n\n" ++ r) ++ "\n\n" ++ ("## Analysis\n\n" ++ a)

/-- C8: the synthesis of the orchestrator agrees everywhere with the
claim's description `synthSpec` — in particular the all-failed case
yields the fixed (non-empty) failure message rather than an empty string,
and no case raises. -/
theorem synthesis_matches_spec (res : StepResults) :
    synthesize_results res = synthSpec res := by
  cases hR : successfulData res.research <;>
    cases hA : successfulData res.analysis <;>
      cases hW : successfulData res.writing <;>
        simp [synthesize_results, synthSpec, hR, hA, hW, String.intercalate] <;>
          rfl

/-! ## ReAct loop (templates/react-agent/agent.py)

The model capability is a black box from the current message sequence to
a response; tools in the registry take the raw argument text (the
`json.loads` + keyword expansion is folded into the callable) and either
return a value or raise, the raised message being whatever `str(e)`
yields. -/

/-- A tool-call request issued by the model. -/
structure ToolCall where
  id : String
  name : String
  arguments : String
deriving DecidableEq

/-- The model's message: content plus the (possibly empty) tool-call
list. -/
structure ModelMsg where
  content : String
  tool_calls : List ToolCall
deriving DecidableEq

/-- Conversation entries of the ReAct loop: plain role/content messages,
the assistant's tool-call request, and per-call tool results. -/
inductive RMsg
  | plain (role content : String)
  | assistantCalls (content : String) (tool_calls : List ToolCall)
  | toolResult (content : String) (tool_call_id : String)
deriving DecidableEq

/-- Values a tool can return: a string or a dict (rendered via
`json.dumps(..., indent=2)`). -/
inductive PyVal
  | str (s : String)
  | dict (entries : List (String × String))
deriving DecidableEq

/-- `json.dumps` rendering of a flat string dict with indent 2. -/
def jsonDumps (entries : List (String × String)) : String :=
  "\x7b\n" ++
    String.intercalate ",\n"
      (entries.map (fun kv => "  \"" ++ kv.1 ++ "\": \"" ++ kv.2 ++ "\"")) ++
  "\n\x7d"

/-- `tool_executor`: unknown tools and raised exceptions become error
strings returned to the loop — the executor itself never raises. -/
def tool_executor (registry : String → Option (String → Except String PyVal))
    (tool_name : String) (arguments : String) : String :=
  match registry tool_name with
  | none => "Error: Unknown tool \x27" ++ tool_name ++ "\x27"
  | some f =>
    match f arguments with
    | Except.ok (PyVal.dict d) => jsonDumps d
    | Except.ok (PyVal.str s) => s
    | Except.error e => "Error executing " ++ tool_name ++ ": " ++ e

/-- The ReAct system prompt. -/
def react_system_prompt : String :=
  "You are a helpful AI agent that can use tools to complete tasks.\n\nFor each step:\n1. Think about what you need to do next\n2. Call a tool if needed, or provide your final answer\n3. Observe the result and continue\n\nWhen you have enough information to answer the user\x27s question, respond directly without calling more tools.\nBe concise and helpful."

/-- One ACTING/OBSERVING round: append the assistant's tool-call message,
then one tool-result entry per requested call, in order. -/
def react_append (registry : String → Option (String → Except String PyVal))
    (msgs : List RMsg) (m : ModelMsg) : List RMsg :=
  (msgs ++ [RMsg.assistantCalls m.content m.tool_calls]) ++
    m.tool_calls.map
      (fun tc => RMsg.toolResult (tool_executor registry tc.name tc.arguments) tc.id)

/-- The iteration loop of `react_agent`: on a response without tool
calls return its content; otherwise execute the calls, extend the
conversation and continue; when the iteration budget is exhausted return
the designated not-completed error text mentioning the original
ceiling. -/
def reactGo (model : List RMsg → ModelMsg)
    (registry : String → Option (String → Except String PyVal)) (ceiling : Nat) :
    Nat → List RMsg → String
  | 0, _ =>
    "Error: Agent did not complete task within " ++ toString ceiling ++ " iterations"
  | fuel + 1, msgs =>
    match (model msgs).tool_calls with
    | [] => (model msgs).content
    | _ :: _ =>
      reactGo model registry ceiling fuel (react_append registry msgs (model msgs))

/-- `react_agent`: run the loop from the system prompt and the task,
with the given iteration ceiling (default 10 in the source). -/
def react_agent (model : List RMsg → ModelMsg)
    (registry : String → Option (String → Except String PyVal))
    (task : String) (max_iterations : Nat) : String :=
  reactGo model registry max_iterations max_iterations
    [RMsg.plain "system" react_system_prompt, RMsg.plain "user" task]

/-- The number of REASONING steps (model invocations) the loop performs,
following the same recursion as `reactGo`. -/
def reactCallsGo (model : List RMsg → ModelMsg)
    (registry : String → Option (String → Except String PyVal)) :
    Nat → List RMsg → Nat
  | 0, _ => 0
  | fuel + 1, msgs =>
    match (model msgs).tool_calls with
    | [] => 1
    | _ :: _ =>
      1 + reactCallsGo model registry fuel (react_append registry msgs (model msgs))

/-- Model invocations performed by `react_agent`. -/
def react_agent_calls (model : List RMsg → ModelMsg)
    (registry : String → Option (String → Except String PyVal))
    (task : String) (max_iterations : Nat) : Nat :=
  reactCallsGo model registry max_iterations
    [RMsg.plain "system" react_system_prompt, RMsg.plain "user" task]

lemma reactGo_exhausts (model : List RMsg → ModelMsg)
    (registry : String → Option (String → Except String PyVal)) (ceiling : Nat)
    (h : ∀ msgs, (model msgs).tool_calls ≠ []) :
    ∀ (fuel : Nat) (msgs : List RMsg),
      reactGo model registry ceiling fuel msgs =
        "Error: Agent did not complete task within " ++ toString ceiling ++
          " iterations" := by
  intro fuel
  induction fuel with
  | zero => intro msgs; rfl
  | succ fuel ih =>
    intro msgs
    rcases hm : (model msgs).tool_calls with _ | ⟨tc, rest⟩
    · exact absurd hm (h msgs)
    · simp only [reactGo, hm]
      exact ih _

lemma reactCallsGo_exhausts (model : List RMsg → ModelMsg)
    (registry : String → Option (String → Except String PyVal))
    (h : ∀ msgs, (model msgs).tool_calls ≠ []) :
    ∀ (fuel : Nat) (msgs : List RMsg),
      reactCallsGo model registry fuel msgs = fuel := by
  intro fuel
  induction fuel with
  | zero => intro msgs; rfl
  | succ fuel ih =>
    intro msgs
    rcases hm : (model msgs).tool_calls with _ | ⟨tc, rest⟩
    · exact absurd hm (h msgs)
    · simp only [reactCallsGo, hm]
      rw [ih]
      omega

/-- C9: when the model requests at least one tool call at every
reasoning step, the ReAct loop performs exactly `max_iterations` model
invocations and returns the designated not-completed text (it never
raises); and any tool whose callable raises is surfaced as an observed
"Error executing" string by `tool_executor` — never a fatal failure. -/
theorem react_exhaustion (model : List RMsg → ModelMsg)
    (registry : String → Option (String → Except String PyVal))
    (h : ∀ msgs, (model msgs).tool_calls ≠ []) (task : String) (n : Nat) :
    react_agent model registry task n =
      "Error: Agent did not complete task within " ++ toString n ++ " iterations" ∧
    react_agent_calls model registry task n = n ∧
    (∀ (tool_name arguments e : String) (f : String → Except String PyVal),
      registry tool_name = some f → f arguments = Except.error e →
      tool_executor registry tool_name arguments =
        "Error executing " ++ tool_name ++ ": " ++ e) := by
  refine ⟨reactGo_exhausts model registry n h n _,
    reactCallsGo_exhausts model registry h n _, ?_⟩
  intro tool_name arguments e f hf he
  simp [tool_executor, hf, he]

/-- A model behaviour that requests the same weather call at every step. -/
def modelAlways : List RMsg → ModelMsg :=
  fun _ => ⟨"", [⟨"call_1", "get_weather", "San Francisco"⟩]⟩

/-- A registry whose weather tool raises on every invocation. -/
def registryFail : String → Option (String → Except String PyVal) :=
  fun tool_name =>
    if tool_name = "get_weather" then
      some (fun city => Except.error ("Weather API timeout for " ++ city))
    else none

/-- Witness for C9: ten iterations with an always-tool-calling model over
an always-raising tool end in the not-completed text after exactly ten
model calls, the tool error having been observed as a string. -/
theorem react_exhaustion_witness :
    react_agent modelAlways registryFail "What is the weather?" 10 =
      "Error: Agent did not complete task within " ++ toString 10 ++ " iterations" ∧
    react_agent_calls modelAlways registryFail "What is the weather?" 10 = 10 ∧
    tool_executor registryFail "get_weather" "San Francisco" =
      "Error executing " ++ "get_weather" ++ ": " ++
        ("Weather API timeout for " ++ "San Francisco") :=
  ⟨(react_exhaustion modelAlways registryFail (fun _ => by simp [modelAlways])
      "What is the weather?" 10).1,
   (react_exhaustion modelAlways registryFail (fun _ => by simp [modelAlways])
      "What is the weather?" 10).2.1,
   (react_exhaustion modelAlways registryFail (fun _ => by simp [modelAlways])
      "What is the weather?" 10).2.2 "get_weather" "San Francisco"
      ("Weather API timeout for " ++ "San Francisco")
      (fun city => Except.error ("Weather API timeout for " ++ city)) rfl rfl⟩
